import Mathlib

/-!
Verification model of the pink-elevenlabs CLI (src/main.go).

The Go program is embedded shallowly: process state (environment variables,
file system) and the single outbound HTTP exchange of an invocation are made
explicit in a `World` record, and each Go function becomes a pure Lean
function from a `World` (plus its Go arguments) to an `OpResult` holding the
final outcome, the trace of observable events (telemetry, network requests,
file writes, stdout/stderr lines), and the final file system.

Modelling conventions:
- Byte sequences (HTTP bodies, file contents) are modelled as `String`,
  matching Go's direct `[]byte`/`string` conversions; byte-for-byte equality
  becomes string equality.
- `godotenv.Load` follows its documented semantics: it defines names read
  from the file only when they are not already present in the process
  environment (it never overrides existing values).
- `os.Exit(1)` inside a helper is the terminal outcome `Outcome.exited 1`;
  a Go `error` return is `Outcome.err`.
- Request bodies (JSON / multipart) are not reproduced textually since no
  claim inspects them; their construction in Go is total for the inputs the
  program builds (plain strings, numbers and booleans), so no
  SerializationError path arises.
- Floating-point voice settings are carried opaquely (as their decimal
  renderings) because the program forwards them verbatim and never computes
  with them.
-/

namespace ElevenLabs

/-- Process environment: association list of (name, value); Go's `os.Getenv`
returns the empty string for absent names. -/
abbrev Env := List (String × String)

/-- Parsed contents of a `.env` file: ordered (name, value) bindings. -/
abbrev EnvFile := List (String × String)

/-- First binding of a name, if any (Go env lookup / file map lookup). -/
def lookupEnv (e : Env) (k : String) : Option String :=
  (e.find? fun p => p.1 == k).map fun p => p.2

/-- Go's `os.Getenv`: value of the name, or `""` when absent. -/
def envGet (e : Env) (k : String) : String :=
  (lookupEnv e k).getD ""

/-- Bindings of an environment with every binding of name `k` removed. -/
def eraseKey (e : Env) (k : String) : Env :=
  e.filter fun p => p.1 != k

/-- The environments agree on every name other than `k`. -/
def agreesExcept (k : String) (e₁ e₂ : Env) : Prop :=
  eraseKey e₁ k = eraseKey e₂ k

/-- godotenv's per-name rule: define the name only when it is not already
present in the environment. -/
def setIfAbsent (e : Env) (k v : String) : Env :=
  if (lookupEnv e k).isSome then e else e ++ [(k, v)]

/-- godotenv.Load of one file: each binding of the file is applied in order,
never overriding names already present. -/
def dotenvLoad (file : EnvFile) (e : Env) : Env :=
  file.foldl (fun acc p => setIfAbsent acc p.1 p.2) e

/-- loadEnv from src/main.go: load the `.env` next to the executable (when
the executable path resolves), then the `.env` of the working directory. -/
def loadEnvGo (exeFile : Option EnvFile) (cwdFile : EnvFile) (e : Env) : Env :=
  dotenvLoad cwdFile (match exeFile with
    | some f => dotenvLoad f e
    | none => e)

/-- The outputFormats table of src/main.go: user-facing format name to the
wire token of the remote API; absent for every other name. -/
def outputFormats (name : String) : Option String :=
  if name = "opus" then some "opus_48000_96"
  else if name = "mp3" then some "mp3_44100_128"
  else if name = "pcm" then some "pcm_44100"
  else none

/-- Base URL of the remote API (constant apiBaseURL). -/
def apiBaseURL : String := "https://api.elevenlabs.io/v1"

/-- Telemetry attribute values (string or number), the shapes the program
emits. -/
inductive AttrVal where
  | s (v : String)
  | n (v : Nat)
deriving DecidableEq, Repr

/-- Observable events of one invocation, in program order. -/
inductive Event where
  | netRequest (method url : String)
  | otelInfo (name : String) (attrs : List (String × AttrVal))
  | otelError (name : String) (attrs : List (String × AttrVal))
  | stderrLine (line : String)
  | stdoutLine (line : String)
  | mkdirAll (dir : String)
  | fileWrite (path : String) (contents : String)
deriving DecidableEq, Repr

/-- Error values a Go operation can return (each constructor is one
`fmt.Errorf` site of src/main.go reachable in the model). -/
inductive AppError where
  | unsupportedFormat (format : String)
  | inputError (path : String)
  | networkError
  | apiError (status : Nat) (body : String)
deriving DecidableEq, Repr

/-- Rendering of each error as the Go error message (the format strings of
the corresponding `fmt.Errorf` calls). -/
def errMessage : AppError → String
  | .unsupportedFormat f => "unsupported format: " ++ f
  | .inputError p => "failed to open input file: " ++ p
  | .networkError => "request failed"
  | .apiError status body => "API error " ++ toString status ++ ": " ++ body

/-- Final outcome of an invocation: normal return, a returned error, or a
process exit (os.Exit). -/
inductive Outcome where
  | ok
  | err (e : AppError)
  | exited (code : Nat)
deriving DecidableEq, Repr

/-- File system: existing directories and files with their contents. -/
structure FS where
  dirs : List String
  files : List (String × String)
deriving DecidableEq, Repr

/-- Contents of a file, when it exists. -/
def fsRead (fs : FS) (p : String) : Option String :=
  (fs.files.find? fun q => q.1 == p).map fun q => q.2

/-- os.MkdirAll for the destination directory (the model records only the
directory itself; the call succeeds in the modelled worlds). -/
def fsMkdirAll (fs : FS) (d : String) : FS :=
  { fs with dirs := if d ∈ fs.dirs then fs.dirs else fs.dirs ++ [d] }

/-- Replace the first binding of a file path, or append a new one. -/
def setFile : List (String × String) → String → String → List (String × String)
  | [], p, c => [(p, c)]
  | q :: rest, p, c => if q.1 == p then (p, c) :: rest else q :: setFile rest p c

/-- os.Create followed by io.Copy of the whole body: the file's final
contents are exactly the body. -/
def fsWrite (fs : FS) (p c : String) : FS :=
  { fs with files := setFile fs.files p c }

/-- Result of one invocation: outcome, trace of observable events, final
file system. -/
structure OpResult where
  outcome : Outcome
  trace : List Event
  fs : FS
deriving DecidableEq, Repr

/-- The ambient state one invocation runs against: process environment, the
two optional `.env` files, the HTTP oracle (none = transport-level failure;
some (status, body) = a response), and the file system. -/
structure World where
  env : Env
  exeEnvFile : Option EnvFile
  cwdEnvFile : EnvFile
  httpResponse : Option (Nat × String)
  fs : FS
deriving DecidableEq, Repr

/-- The effective environment after loadEnv ran against the world. -/
def loadEnvW (w : World) : Env :=
  loadEnvGo w.exeEnvFile w.cwdEnvFile w.env

/-- filepath.Dir restricted to the shapes the program uses: the portion
before the last slash, `"."` when the path has no slash. -/
def dirOf (p : String) : String :=
  let parts := p.splitOn "/"
  if parts.length ≤ 1 then "." else String.intercalate "/" parts.dropLast

/-- Voice settings forwarded verbatim into the synthesis request (decimal
renderings of the four float controls plus the speaker-boost toggle). -/
structure VoiceSettingsM where
  stability : String
  similarityBoost : String
  style : String
  speed : String
  useSpeakerBoost : Bool
deriving DecidableEq, Repr

/-- textToSpeech of src/main.go: resolve the credential (exit when absent),
translate the format, emit the request event, execute the request, and
either persist the 200 body or surface the error. -/
def textToSpeech (w : World) (text outputPath voiceID format : String)
    (_vs : VoiceSettingsM) : OpResult :=
  let env := loadEnvW w
  let apiKey := envGet env "ELEVENLABS_API_KEY"
  if apiKey = "" then
    { outcome := .exited 1
      trace := [.otelError "ELEVENLABS_API_KEY not found" [],
                .stderrLine "ERROR: ELEVENLABS_API_KEY not found in environment"]
      fs := w.fs }
  else
    match outputFormats format with
    | none => { outcome := .err (.unsupportedFormat format), trace := [], fs := w.fs }
    | some apiFormat =>
      let url := apiBaseURL ++ "/text-to-speech/" ++ voiceID ++ "?output_format=" ++ apiFormat
      let reqEvt := Event.otelInfo "tts_request"
        [("voice_id", .s voiceID), ("format", .s format), ("text_len", .n text.utf8ByteSize)]
      match w.httpResponse with
      | none =>
        { outcome := .err .networkError
          trace := [reqEvt, .netRequest "POST" url]
          fs := w.fs }
      | some (status, body) =>
        if status ≠ 200 then
          { outcome := .err (.apiError status body)
            trace := [reqEvt, .netRequest "POST" url]
            fs := w.fs }
        else
          let d := dirOf outputPath
          { outcome := .ok
            trace := [reqEvt, .netRequest "POST" url, .mkdirAll d,
                      .fileWrite outputPath body,
                      .otelInfo "tts_complete" [("output", .s outputPath)]]
            fs := fsWrite (fsMkdirAll w.fs d) outputPath body }

/-- voiceChange of src/main.go: resolve the credential (exit when absent),
translate the format, open the source audio, emit the request event, execute
the request, and either persist the 200 body or surface the error. -/
def voiceChange (w : World) (inputPath outputPath voiceID format : String) : OpResult :=
  let env := loadEnvW w
  let apiKey := envGet env "ELEVENLABS_API_KEY"
  if apiKey = "" then
    { outcome := .exited 1
      trace := [.otelError "ELEVENLABS_API_KEY not found" [],
                .stderrLine "ERROR: ELEVENLABS_API_KEY not found in environment"]
      fs := w.fs }
  else
    match outputFormats format with
    | none => { outcome := .err (.unsupportedFormat format), trace := [], fs := w.fs }
    | some apiFormat =>
      match fsRead w.fs inputPath with
      | none => { outcome := .err (.inputError inputPath), trace := [], fs := w.fs }
      | some _audio =>
        let url := apiBaseURL ++ "/speech-to-speech/" ++ voiceID ++ "?output_format=" ++ apiFormat
        let reqEvt := Event.otelInfo "voice_change_request"
          [("voice_id", .s voiceID), ("format", .s format), ("input", .s inputPath)]
        match w.httpResponse with
        | none =>
          { outcome := .err .networkError
            trace := [reqEvt, .netRequest "POST" url]
            fs := w.fs }
        | some (status, body) =>
          if status ≠ 200 then
            { outcome := .err (.apiError status body)
              trace := [reqEvt, .netRequest "POST" url]
              fs := w.fs }
          else
            let d := dirOf outputPath
            { outcome := .ok
              trace := [reqEvt, .netRequest "POST" url, .mkdirAll d,
                        .fileWrite outputPath body,
                        .otelInfo "voice_change_complete" [("output", .s outputPath)]]
              fs := fsWrite (fsMkdirAll w.fs d) outputPath body }

/-- checkHealth of src/main.go: false without a credential (no request),
otherwise GET /user and report whether the status is 200; transport failure
is false. Returns the boolean and the events of the probe. -/
def checkHealth (w : World) : Bool × List Event :=
  let env := loadEnvW w
  let key := envGet env "ELEVENLABS_API_KEY"
  if key = "" then (false, [])
  else
    match w.httpResponse with
    | none => (false, [.netRequest "GET" (apiBaseURL ++ "/user")])
    | some (status, _) => (status == 200, [.netRequest "GET" (apiBaseURL ++ "/user")])

/-- Options of the tts subcommand after flag parsing (parsing itself is an
external collaborator). -/
structure TTSOpts where
  output : String
  voice : String
  format : String
  settings : VoiceSettingsM
deriving DecidableEq, Repr

/-- Options of the voice subcommand after flag parsing. -/
structure VoiceOpts where
  output : String
  voice : String
  format : String
deriving DecidableEq, Repr

/-- Shared tail of cmdTTS/cmdVoice: on a returned error, emit the failure
event and diagnostic then exit 1; on success, print the destination path;
an exit from inside the operation already terminated the process. -/
def wrapCmd (failEvent outputPath : String) (r : OpResult) : OpResult :=
  match r.outcome with
  | .ok => { r with trace := r.trace ++ [.stdoutLine outputPath] }
  | .err e =>
    { outcome := .exited 1
      trace := r.trace ++ [.otelError failEvent [("error", .s (errMessage e))],
                           .stderrLine ("ERROR: " ++ errMessage e)]
      fs := r.fs }
  | .exited _ => r

/-- cmdTTS of src/main.go: resolve the effective voice id (override, else
the configured default, exiting when absent), run textToSpeech, then report. -/
def cmdTTS (w : World) (text : String) (o : TTSOpts) : OpResult :=
  if o.voice = "" then
    let env1 := loadEnvW w
    let vid := envGet env1 "ELEVENLABS_TTS_VOICE_ID"
    if vid = "" then
      { outcome := .exited 1
        trace := [.otelError "ELEVENLABS_TTS_VOICE_ID not found" [],
                  .stderrLine "ERROR: ELEVENLABS_TTS_VOICE_ID not found in environment"]
        fs := w.fs }
    else
      wrapCmd "tts_failed" o.output
        (textToSpeech { w with env := env1 } text o.output vid o.format o.settings)
  else
    wrapCmd "tts_failed" o.output
      (textToSpeech w text o.output o.voice o.format o.settings)

/-- cmdVoice of src/main.go: check the source file exists, resolve the
effective voice id (override, else the configured default, exiting when
absent), run voiceChange, then report. -/
def cmdVoice (w : World) (inputPath : String) (o : VoiceOpts) : OpResult :=
  if (fsRead w.fs inputPath).isNone then
    { outcome := .exited 1
      trace := [.stderrLine ("ERROR: Input file not found: " ++ inputPath)]
      fs := w.fs }
  else if o.voice = "" then
    let env1 := loadEnvW w
    let vid := envGet env1 "ELEVENLABS_VOICE_CHANGE_ID"
    if vid = "" then
      { outcome := .exited 1
        trace := [.otelError "ELEVENLABS_VOICE_CHANGE_ID not found" [],
                  .stderrLine "ERROR: ELEVENLABS_VOICE_CHANGE_ID not found in environment"]
        fs := w.fs }
    else
      wrapCmd "voice_change_failed" o.output
        (voiceChange { w with env := env1 } inputPath o.output vid o.format)
  else
    wrapCmd "voice_change_failed" o.output
      (voiceChange w inputPath o.output o.voice o.format)

/-- Whether an event is an outbound network request. -/
def isNetRequest : Event → Bool
  | .netRequest _ _ => true
  | _ => false

/-- Number of network requests in a trace. -/
def netCount (t : List Event) : Nat :=
  (t.filter isNetRequest).length

/-- Whether an event is a file write. -/
def isFileWrite : Event → Bool
  | .fileWrite _ _ => true
  | _ => false

/-- Whether an event is a stdout line. -/
def isStdout : Event → Bool
  | .stdoutLine _ => true
  | _ => false

/-- The telemetry info events of a trace bearing a given event name. -/
def eventsNamed (n : String) (t : List Event) : List Event :=
  t.filter fun e =>
    match e with
    | .otelInfo m _ => m == n
    | _ => false

/-- Names appearing among a list of telemetry attributes. -/
def attrKeys (attrs : List (String × AttrVal)) : List String :=
  attrs.map fun p => p.1

/-- Effective synthesis voice id of a tts invocation: the caller override
when non-empty, otherwise the configured default read after loadEnv
(main.go lines 372-375). -/
def effectiveTTSVoice (w : World) (o : TTSOpts) : String :=
  if o.voice = "" then envGet (loadEnvW w) "ELEVENLABS_TTS_VOICE_ID" else o.voice

/-- Effective target voice id of a voice invocation: the caller override
when non-empty, otherwise the configured default read after loadEnv
(main.go lines 412-414). -/
def effectiveVoiceChangeVoice (w : World) (vo : VoiceOpts) : String :=
  if vo.voice = "" then envGet (loadEnvW w) "ELEVENLABS_VOICE_CHANGE_ID" else vo.voice

/-! Lemmas about environment loading. -/

theorem lookupEnv_append (e l : Env) (k : String) :
    lookupEnv (e ++ l) k = (lookupEnv e k).or (lookupEnv l k) := by
  unfold lookupEnv
  rw [List.find?_append]
  cases e.find? fun p => p.1 == k <;> simp [Option.or]

theorem lookupEnv_setIfAbsent_some (e : Env) (k k₁ v₁ v : String)
    (h : lookupEnv e k = some v) :
    lookupEnv (setIfAbsent e k₁ v₁) k = some v := by
  unfold setIfAbsent
  split
  · exact h
  · rw [lookupEnv_append, h]; rfl

theorem lookupEnv_single_ne (k₁ v₁ k : String) (hne : k₁ ≠ k) :
    lookupEnv [(k₁, v₁)] k = none := by
  have hb : (k₁ == k) = false := beq_eq_false_iff_ne.mpr hne
  simp [lookupEnv, List.find?, hb]

theorem lookupEnv_setIfAbsent_none (e : Env) (k k₁ v₁ : String)
    (hne : k₁ ≠ k) (h : lookupEnv e k = none) :
    lookupEnv (setIfAbsent e k₁ v₁) k = none := by
  unfold setIfAbsent
  split
  · exact h
  · rw [lookupEnv_append, h, lookupEnv_single_ne _ _ _ hne]; rfl

theorem dotenvLoad_nil (e : Env) : dotenvLoad [] e = e := rfl

theorem dotenvLoad_cons (p : String × String) (f : EnvFile) (e : Env) :
    dotenvLoad (p :: f) e = dotenvLoad f (setIfAbsent e p.1 p.2) := rfl

theorem dotenvLoad_preserves (f : EnvFile) (e : Env) (k v : String)
    (h : lookupEnv e k = some v) : lookupEnv (dotenvLoad f e) k = some v := by
  induction f generalizing e with
  | nil => exact h
  | cons p f ih =>
    rw [dotenvLoad_cons]
    exact ih _ (lookupEnv_setIfAbsent_some _ _ _ _ _ h)

theorem dotenvLoad_defines (f : EnvFile) (e : Env) (k v : String)
    (he : lookupEnv e k = none) (hf : lookupEnv f k = some v) :
    lookupEnv (dotenvLoad f e) k = some v := by
  induction f generalizing e with
  | nil => simp [lookupEnv] at hf
  | cons p f ih =>
    obtain ⟨k₁, v₁⟩ := p
    rw [dotenvLoad_cons]
    by_cases hk : k₁ = k
    · subst hk
      have hv : v₁ = v := by
        simpa [lookupEnv, List.find?] using hf
      have habs : (lookupEnv e k₁).isSome = false := by rw [he]; rfl
      have hstep : lookupEnv (setIfAbsent e k₁ v₁) k₁ = some v₁ := by
        unfold setIfAbsent
        rw [habs]
        simp only [Bool.false_eq_true, if_false]
        rw [lookupEnv_append, he]
        simp [lookupEnv, List.find?]
      rw [← hv]
      exact dotenvLoad_preserves _ _ _ _ hstep
    · have hb : (k₁ == k) = false := beq_eq_false_iff_ne.mpr hk
      have hf' : lookupEnv f k = some v := by
        simpa [lookupEnv, List.find?, hb] using hf
      exact ih _ (lookupEnv_setIfAbsent_none _ _ _ _ hk he) hf'

theorem setIfAbsent_of_present (e : Env) (k v : String)
    (h : (lookupEnv e k).isSome = true) : setIfAbsent e k v = e := by
  unfold setIfAbsent
  rw [h]
  rfl

theorem isSome_lookupEnv_setIfAbsent_self (e : Env) (k v : String) :
    (lookupEnv (setIfAbsent e k v) k).isSome = true := by
  unfold setIfAbsent
  split
  · assumption
  · rename_i h
    rw [lookupEnv_append]
    cases he : lookupEnv e k with
    | some x => rw [he] at h; simp at h
    | none => simp [lookupEnv, List.find?, Option.or]

theorem isSome_lookupEnv_dotenvLoad (f : EnvFile) (e : Env) (k : String)
    (h : (lookupEnv e k).isSome = true) :
    (lookupEnv (dotenvLoad f e) k).isSome = true := by
  obtain ⟨v, hv⟩ := Option.isSome_iff_exists.mp h
  rw [dotenvLoad_preserves _ _ _ _ hv]
  rfl

theorem isSome_of_mem_dotenvLoad (f : EnvFile) (e : Env) (p : String × String)
    (hp : p ∈ f) : (lookupEnv (dotenvLoad f e) p.1).isSome = true := by
  induction f generalizing e with
  | nil => cases hp
  | cons q f ih =>
    rw [dotenvLoad_cons]
    rcases List.mem_cons.mp hp with hq | hf
    · subst hq
      exact isSome_lookupEnv_dotenvLoad _ _ _
        (isSome_lookupEnv_setIfAbsent_self _ _ _)
    · exact ih _ hf

theorem dotenvLoad_of_all_present (f : EnvFile) (e : Env)
    (h : ∀ p ∈ f, (lookupEnv e p.1).isSome = true) : dotenvLoad f e = e := by
  induction f with
  | nil => rfl
  | cons q f ih =>
    rw [dotenvLoad_cons, setIfAbsent_of_present _ _ _ (h q (List.mem_cons_self q f))]
    exact ih fun p hp => h p (List.mem_cons_of_mem q hp)

theorem loadEnvGo_idem (exeF : Option EnvFile) (cwdF : EnvFile) (e : Env) :
    loadEnvGo exeF cwdF (loadEnvGo exeF cwdF e) = loadEnvGo exeF cwdF e := by
  cases exeF with
  | none =>
    show dotenvLoad cwdF (dotenvLoad cwdF e) = dotenvLoad cwdF e
    exact dotenvLoad_of_all_present _ _ fun p hp => isSome_of_mem_dotenvLoad _ _ _ hp
  | some f =>
    show dotenvLoad cwdF (dotenvLoad f (dotenvLoad cwdF (dotenvLoad f e))) =
      dotenvLoad cwdF (dotenvLoad f e)
    have hf : dotenvLoad f (dotenvLoad cwdF (dotenvLoad f e)) =
        dotenvLoad cwdF (dotenvLoad f e) :=
      dotenvLoad_of_all_present _ _ fun p hp =>
        isSome_lookupEnv_dotenvLoad _ _ _ (isSome_of_mem_dotenvLoad _ _ _ hp)
    rw [hf]
    exact dotenvLoad_of_all_present _ _ fun p hp => isSome_of_mem_dotenvLoad _ _ _ hp

theorem loadEnvW_idem (w : World) : loadEnvW { w with env := loadEnvW w } = loadEnvW w :=
  loadEnvGo_idem w.exeEnvFile w.cwdEnvFile w.env

/-! Lemmas relating environments that agree outside one name. -/

theorem lookupEnv_eraseKey (e : Env) (k q : String) (hq : q ≠ k) :
    lookupEnv (eraseKey e k) q = lookupEnv e q := by
  induction e with
  | nil => rfl
  | cons p e ih =>
    by_cases hp : p.1 = k
    · have hb : (p.1 != k) = false := by simp [hp]
      have hne : (p.1 == q) = false := beq_eq_false_iff_ne.mpr (by rw [hp]; exact fun h => hq h.symm)
      simp only [eraseKey, List.filter] at *
      rw [hb]
      simp only [lookupEnv, List.find?, hne] at *
      exact ih
    · have hb : (p.1 != k) = true := by simp [hp]
      simp only [eraseKey, List.filter] at *
      rw [hb]
      by_cases hpq : p.1 = q
      · have hbq : (p.1 == q) = true := by simp [hpq]
        simp [lookupEnv, List.find?, hbq]
      · have hbq : (p.1 == q) = false := beq_eq_false_iff_ne.mpr hpq
        simp only [lookupEnv, List.find?, hbq] at *
        exact ih

theorem envHas_eraseKey (e : Env) (k k₁ : String) (hk : k₁ ≠ k) :
    (lookupEnv (eraseKey e k) k₁).isSome = (lookupEnv e k₁).isSome := by
  rw [lookupEnv_eraseKey _ _ _ hk]

theorem eraseKey_append (e l : Env) (k : String) :
    eraseKey (e ++ l) k = eraseKey e k ++ eraseKey l k := by
  simp [eraseKey, List.filter_append]

theorem eraseKey_setIfAbsent (e : Env) (k k₁ v : String) :
    eraseKey (setIfAbsent e k₁ v) k =
      if k₁ = k then eraseKey e k else setIfAbsent (eraseKey e k) k₁ v := by
  by_cases hk : k₁ = k
  · subst hk
    rw [if_pos rfl]
    unfold setIfAbsent
    split
    · rfl
    · rw [eraseKey_append]
      simp [eraseKey, List.filter]
  · rw [if_neg hk]
    unfold setIfAbsent
    rw [envHas_eraseKey _ _ _ hk]
    split
    · rfl
    · rw [eraseKey_append]
      have hb : (k₁ != k) = true := by simp [hk]
      simp [eraseKey, List.filter, hb]

theorem dotenvLoad_agreesExcept (f : EnvFile) (k : String) (e₁ e₂ : Env)
    (h : agreesExcept k e₁ e₂) :
    agreesExcept k (dotenvLoad f e₁) (dotenvLoad f e₂) := by
  induction f generalizing e₁ e₂ with
  | nil => exact h
  | cons p f ih =>
    rw [dotenvLoad_cons, dotenvLoad_cons]
    apply ih
    unfold agreesExcept at h ⊢
    rw [eraseKey_setIfAbsent, eraseKey_setIfAbsent, h]

theorem loadEnvGo_agreesExcept (exeF : Option EnvFile) (cwdF : EnvFile) (k : String)
    (e₁ e₂ : Env) (h : agreesExcept k e₁ e₂) :
    agreesExcept k (loadEnvGo exeF cwdF e₁) (loadEnvGo exeF cwdF e₂) := by
  unfold loadEnvGo
  cases exeF with
  | none => exact dotenvLoad_agreesExcept _ _ _ _ h
  | some f => exact dotenvLoad_agreesExcept _ _ _ _ (dotenvLoad_agreesExcept _ _ _ _ h)

theorem envGet_of_agreesExcept (k q : String) (e₁ e₂ : Env)
    (h : agreesExcept k e₁ e₂) (hq : q ≠ k) : envGet e₁ q = envGet e₂ q := by
  unfold envGet
  rw [← lookupEnv_eraseKey e₁ k q hq, ← lookupEnv_eraseKey e₂ k q hq, h]

/-! Lemmas about the file-system model. -/

theorem find?_setFile (l : List (String × String)) (p c : String) :
    ((setFile l p c).find? fun q => q.1 == p) = some (p, c) := by
  induction l with
  | nil => simp [setFile, List.find?]
  | cons q rest ih =>
    unfold setFile
    cases hq : (q.1 == p) with
    | true => simp [List.find?]
    | false => simp [List.find?, hq, ih]

theorem fsRead_fsWrite (fs : FS) (p c : String) :
    fsRead (fsWrite fs p c) p = some c := by
  unfold fsRead fsWrite
  simp [find?_setFile]

theorem mem_dirs_fsMkdirAll (fs : FS) (d : String) :
    d ∈ (fsMkdirAll fs d).dirs := by
  unfold fsMkdirAll
  split
  · assumption
  · simp

/-- C1: over the fixed set of format names, the table yields exactly the
documented wire tokens (opus ↦ opus_48000_96, mp3 ↦ mp3_44100_128,
pcm ↦ pcm_44100); every other string (matching is exact and case-sensitive)
is absent from the table, and both operations then fail with the
unsupported-format error whose message names the offending token. -/
theorem outputFormats_contract (w : World)
    (s text outputPath voiceID inputPath : String) (vs : VoiceSettingsM)
    (hkey : envGet (loadEnvW w) "ELEVENLABS_API_KEY" ≠ "")
    (h1 : s ≠ "opus") (h2 : s ≠ "mp3") (h3 : s ≠ "pcm") :
    outputFormats "opus" = some "opus_48000_96" ∧
    outputFormats "mp3" = some "mp3_44100_128" ∧
    outputFormats "pcm" = some "pcm_44100" ∧
    outputFormats s = none ∧
    (textToSpeech w text outputPath voiceID s vs).outcome =
      .err (.unsupportedFormat s) ∧
    (voiceChange w inputPath outputPath voiceID s).outcome =
      .err (.unsupportedFormat s) ∧
    errMessage (.unsupportedFormat s) = "unsupported format: " ++ s := by
  have hfmt : outputFormats s = none := by
    simp [outputFormats, h1, h2, h3]
  refine ⟨rfl, rfl, rfl, hfmt, ?_, ?_, rfl⟩
  · simp [textToSpeech, hkey, hfmt]
  · simp [voiceChange, hkey, hfmt]

/-- C1 witness: the table facts hold, and at the concrete case-variant
input "OPUS" (with a credential present) both operations reject the format,
naming it in the message. -/
theorem outputFormats_contract_witness :
    outputFormats "opus" = some "opus_48000_96" ∧
    outputFormats "mp3" = some "mp3_44100_128" ∧
    outputFormats "pcm" = some "pcm_44100" ∧
    outputFormats "OPUS" = none ∧
    (textToSpeech ⟨[("ELEVENLABS_API_KEY", "k")], none, [], none, ⟨[], []⟩⟩
        "hi" "o.ogg" "v" "OPUS" ⟨"0.0", "0.75", "0.5", "1.0", true⟩).outcome =
      .err (.unsupportedFormat "OPUS") ∧
    (voiceChange ⟨[("ELEVENLABS_API_KEY", "k")], none, [], none, ⟨[], []⟩⟩
        "in.wav" "o.ogg" "v" "OPUS").outcome =
      .err (.unsupportedFormat "OPUS") ∧
    errMessage (.unsupportedFormat "OPUS") = "unsupported format: " ++ "OPUS" :=
  outputFormats_contract ⟨[("ELEVENLABS_API_KEY", "k")], none, [], none, ⟨[], []⟩⟩
    "OPUS" "hi" "o.ogg" "v" "in.wav" ⟨"0.0", "0.75", "0.5", "1.0", true⟩
    (by decide) (by decide) (by decide) (by decide)

/-- C2: when the effective environment (after the dotenv loads) carries no
API credential, both operations terminate as the configuration-missing
failure — exit code 1 with the diagnostic naming ELEVENLABS_API_KEY — and
their traces contain zero network requests. -/
theorem configMissing_noNetwork (w : World)
    (text outputPath inputPath voiceID format : String) (vs : VoiceSettingsM)
    (hkey : envGet (loadEnvW w) "ELEVENLABS_API_KEY" = "") :
    (textToSpeech w text outputPath voiceID format vs).outcome = .exited 1 ∧
    netCount (textToSpeech w text outputPath voiceID format vs).trace = 0 ∧
    Event.stderrLine "ERROR: ELEVENLABS_API_KEY not found in environment" ∈
      (textToSpeech w text outputPath voiceID format vs).trace ∧
    (voiceChange w inputPath outputPath voiceID format).outcome = .exited 1 ∧
    netCount (voiceChange w inputPath outputPath voiceID format).trace = 0 ∧
    Event.stderrLine "ERROR: ELEVENLABS_API_KEY not found in environment" ∈
      (voiceChange w inputPath outputPath voiceID format).trace := by
  have ht : textToSpeech w text outputPath voiceID format vs =
      { outcome := .exited 1
        trace := [.otelError "ELEVENLABS_API_KEY not found" [],
                  .stderrLine "ERROR: ELEVENLABS_API_KEY not found in environment"]
        fs := w.fs } := by
    simp [textToSpeech, hkey]
  have hv : voiceChange w inputPath outputPath voiceID format =
      { outcome := .exited 1
        trace := [.otelError "ELEVENLABS_API_KEY not found" [],
                  .stderrLine "ERROR: ELEVENLABS_API_KEY not found in environment"]
        fs := w.fs } := by
    simp [voiceChange, hkey]
  rw [ht, hv]
  refine ⟨rfl, rfl, by simp, rfl, rfl, by simp⟩

/-- C2 witness: with an empty process environment and no dotenv files, both
operations exit as configuration-missing without any network request. -/
theorem configMissing_noNetwork_witness :
    (textToSpeech ⟨[], none, [], some (200, "AUDIO"), ⟨[], []⟩⟩
        "hi" "o.ogg" "v" "opus" ⟨"0.0", "0.75", "0.5", "1.0", true⟩).outcome = .exited 1 ∧
    netCount (textToSpeech ⟨[], none, [], some (200, "AUDIO"), ⟨[], []⟩⟩
        "hi" "o.ogg" "v" "opus" ⟨"0.0", "0.75", "0.5", "1.0", true⟩).trace = 0 ∧
    Event.stderrLine "ERROR: ELEVENLABS_API_KEY not found in environment" ∈
      (textToSpeech ⟨[], none, [], some (200, "AUDIO"), ⟨[], []⟩⟩
        "hi" "o.ogg" "v" "opus" ⟨"0.0", "0.75", "0.5", "1.0", true⟩).trace ∧
    (voiceChange ⟨[], none, [], some (200, "AUDIO"), ⟨[], []⟩⟩
        "in.wav" "o.ogg" "v" "opus").outcome = .exited 1 ∧
    netCount (voiceChange ⟨[], none, [], some (200, "AUDIO"), ⟨[], []⟩⟩
        "in.wav" "o.ogg" "v" "opus").trace = 0 ∧
    Event.stderrLine "ERROR: ELEVENLABS_API_KEY not found in environment" ∈
      (voiceChange ⟨[], none, [], some (200, "AUDIO"), ⟨[], []⟩⟩
        "in.wav" "o.ogg" "v" "opus").trace :=
  configMissing_noNetwork ⟨[], none, [], some (200, "AUDIO"), ⟨[], []⟩⟩
    "hi" "o.ogg" "in.wav" "v" "opus" ⟨"0.0", "0.75", "0.5", "1.0", true⟩ (by decide)

/-- C3 counterexample: with an empty process environment, when the
executable-adjacent file and the working-directory file both define the same
name, the effective value is the one of the executable-adjacent file — the
FIRST load — because loads never override names already present; the claim
that the last load determines the value is therefore false at this input. -/
theorem loadEnv_lastWins_counterexample :
    envGet (loadEnvGo (some [("SOMEKEY", "fromExeFile")])
        [("SOMEKEY", "fromCwdFile")] []) "SOMEKEY" = "fromExeFile" ∧
    ("fromExeFile" : String) ≠ "fromCwdFile" := by
  refine ⟨rfl, by decide⟩

/-- C3 amended: configuration loading attempts the executable-adjacent file
first and the working-directory file second, and a load never overrides a
name already present; hence when both files define the same name and the
process environment does not, the FIRST load that defines the name — the
executable-adjacent file — determines the effective value. -/
theorem loadEnv_firstLoad_wins (e : Env) (exeF cwdF : EnvFile) (k v : String)
    (he : lookupEnv e k = none) (hexe : lookupEnv exeF k = some v)
    (hcwd : (lookupEnv cwdF k).isSome = true) :
    envGet (loadEnvGo (some exeF) cwdF e) k = v := by
  have h1 : lookupEnv (dotenvLoad exeF e) k = some v :=
    dotenvLoad_defines _ _ _ _ he hexe
  have h2 : lookupEnv (dotenvLoad cwdF (dotenvLoad exeF e)) k = some v :=
    dotenvLoad_preserves _ _ _ _ h1
  unfold loadEnvGo envGet
  rw [h2]
  rfl

/-- C3 amended witness: at the concrete conflicting files, the effective
value is the executable-adjacent one. -/
theorem loadEnv_firstLoad_wins_witness :
    envGet (loadEnvGo (some [("SOMEKEY", "fromExeFile")])
        [("SOMEKEY", "fromCwdFile")] []) "SOMEKEY" = "fromExeFile" :=
  loadEnv_firstLoad_wins [] [("SOMEKEY", "fromExeFile")] [("SOMEKEY", "fromCwdFile")]
    "SOMEKEY" "fromExeFile" (by decide) (by decide) (by decide)

/-- C6: with a credential present, the liveness probe answers true exactly
when the exchange on the /user endpoint produced a response with HTTP status
200; every other status and any transport-level failure yields false, and
the probe's only signal to its caller is the boolean (it is a total,
boolean-valued function of the world). -/
theorem checkHealth_contract (w : World)
    (hkey : envGet (loadEnvW w) "ELEVENLABS_API_KEY" ≠ "") :
    (checkHealth w).1 = true ↔ ∃ b, w.httpResponse = some (200, b) := by
  simp only [checkHealth, hkey, if_neg hkey]
  cases hr : w.httpResponse with
  | none => simp
  | some p =>
    obtain ⟨st, b⟩ := p
    simp only [Option.some.injEq, Prod.mk.injEq]
    constructor
    · intro h
      exact ⟨b, by simpa using h.symm, rfl⟩
    · rintro ⟨b', hst, _⟩
      simp [hst]

/-- C6 witness: with a credential present and a 200 response, the probe
answers true. -/
theorem checkHealth_contract_witness :
    (checkHealth ⟨[("ELEVENLABS_API_KEY", "k")], none, [], some (200, "me"), ⟨[], []⟩⟩).1
      = true ↔ ∃ b, (some ((200 : Nat), "me") : Option (Nat × String)) = some (200, b) :=
  checkHealth_contract ⟨[("ELEVENLABS_API_KEY", "k")], none, [], some (200, "me"), ⟨[], []⟩⟩
    (by decide)

/-- C10: when the effective environment carries no API credential, the
liveness probe answers false and its trace contains no network request at
all. -/
theorem checkHealth_noKey_noNetwork (w : World)
    (hkey : envGet (loadEnvW w) "ELEVENLABS_API_KEY" = "") :
    (checkHealth w).1 = false ∧ netCount (checkHealth w).2 = 0 := by
  simp [checkHealth, hkey, netCount]

/-- C10 witness: with an empty environment the probe is false with zero
network requests, even though the oracle would have answered 200. -/
theorem checkHealth_noKey_noNetwork_witness :
    (checkHealth ⟨[], none, [], some (200, "me"), ⟨[], []⟩⟩).1 = false ∧
    netCount (checkHealth ⟨[], none, [], some (200, "me"), ⟨[], []⟩⟩).2 = 0 :=
  checkHealth_noKey_noNetwork ⟨[], none, [], some (200, "me"), ⟨[], []⟩⟩ (by decide)

/-- C4: for a successful call (credential present, supported format, HTTP
status 200 with body B), each operation finishes normally, the destination
file's final contents equal B exactly, the destination's parent directory
exists in the final file system, and in the trace the directory creation
happens immediately before the file write. -/
theorem success_persists_body (w : World) (B : String)
    (text outputPath voiceID inputPath format apiFormat audio : String)
    (vs : VoiceSettingsM)
    (hkey : envGet (loadEnvW w) "ELEVENLABS_API_KEY" ≠ "")
    (hfmt : outputFormats format = some apiFormat)
    (hresp : w.httpResponse = some (200, B))
    (hin : fsRead w.fs inputPath = some audio) :
    ((textToSpeech w text outputPath voiceID format vs).outcome = .ok ∧
     fsRead (textToSpeech w text outputPath voiceID format vs).fs outputPath = some B ∧
     dirOf outputPath ∈ (textToSpeech w text outputPath voiceID format vs).fs.dirs ∧
     ∃ pre post, (textToSpeech w text outputPath voiceID format vs).trace =
       pre ++ [.mkdirAll (dirOf outputPath), .fileWrite outputPath B] ++ post) ∧
    ((voiceChange w inputPath outputPath voiceID format).outcome = .ok ∧
     fsRead (voiceChange w inputPath outputPath voiceID format).fs outputPath = some B ∧
     dirOf outputPath ∈ (voiceChange w inputPath outputPath voiceID format).fs.dirs ∧
     ∃ pre post, (voiceChange w inputPath outputPath voiceID format).trace =
       pre ++ [.mkdirAll (dirOf outputPath), .fileWrite outputPath B] ++ post) := by
  have ht : textToSpeech w text outputPath voiceID format vs =
      { outcome := .ok
        trace := [.otelInfo "tts_request"
                    [("voice_id", .s voiceID), ("format", .s format),
                     ("text_len", .n text.utf8ByteSize)],
                  .netRequest "POST" (apiBaseURL ++ "/text-to-speech/" ++ voiceID ++
                    "?output_format=" ++ apiFormat),
                  .mkdirAll (dirOf outputPath),
                  .fileWrite outputPath B,
                  .otelInfo "tts_complete" [("output", .s outputPath)]]
        fs := fsWrite (fsMkdirAll w.fs (dirOf outputPath)) outputPath B } := by
    simp [textToSpeech, hkey, hfmt, hresp]
  have hv : voiceChange w inputPath outputPath voiceID format =
      { outcome := .ok
        trace := [.otelInfo "voice_change_request"
                    [("voice_id", .s voiceID), ("format", .s format),
                     ("input", .s inputPath)],
                  .netRequest "POST" (apiBaseURL ++ "/speech-to-speech/" ++ voiceID ++
                    "?output_format=" ++ apiFormat),
                  .mkdirAll (dirOf outputPath),
                  .fileWrite outputPath B,
                  .otelInfo "voice_change_complete" [("output", .s outputPath)]]
        fs := fsWrite (fsMkdirAll w.fs (dirOf outputPath)) outputPath B } := by
    simp [voiceChange, hkey, hfmt, hresp, hin]
  rw [ht, hv]
  refine ⟨⟨rfl, fsRead_fsWrite _ _ _, mem_dirs_fsMkdirAll _ _, ?_⟩,
          rfl, fsRead_fsWrite _ _ _, mem_dirs_fsMkdirAll _ _, ?_⟩
  · exact ⟨[.otelInfo "tts_request"
              [("voice_id", .s voiceID), ("format", .s format),
               ("text_len", .n text.utf8ByteSize)],
            .netRequest "POST" (apiBaseURL ++ "/text-to-speech/" ++ voiceID ++
              "?output_format=" ++ apiFormat)],
           [.otelInfo "tts_complete" [("output", .s outputPath)]], rfl⟩
  · exact ⟨[.otelInfo "voice_change_request"
              [("voice_id", .s voiceID), ("format", .s format),
               ("input", .s inputPath)],
            .netRequest "POST" (apiBaseURL ++ "/speech-to-speech/" ++ voiceID ++
              "?output_format=" ++ apiFormat)],
           [.otelInfo "voice_change_complete" [("output", .s outputPath)]], rfl⟩

/-- C4 witness: a concrete successful synthesis and transformation against a
200 response with body AUDIO writes AUDIO to out/a.ogg and creates the out
directory first. -/
theorem success_persists_body_witness :
    ((textToSpeech ⟨[("ELEVENLABS_API_KEY", "k")], none, [],
        some (200, "AUDIO"), ⟨[], [("in.wav", "WAV")]⟩⟩
        "hi" "out/a.ogg" "v" "opus" ⟨"0.0", "0.75", "0.5", "1.0", true⟩).outcome = .ok ∧
     fsRead (textToSpeech ⟨[("ELEVENLABS_API_KEY", "k")], none, [],
        some (200, "AUDIO"), ⟨[], [("in.wav", "WAV")]⟩⟩
        "hi" "out/a.ogg" "v" "opus" ⟨"0.0", "0.75", "0.5", "1.0", true⟩).fs "out/a.ogg"
        = some "AUDIO" ∧
     dirOf "out/a.ogg" ∈ (textToSpeech ⟨[("ELEVENLABS_API_KEY", "k")], none, [],
        some (200, "AUDIO"), ⟨[], [("in.wav", "WAV")]⟩⟩
        "hi" "out/a.ogg" "v" "opus" ⟨"0.0", "0.75", "0.5", "1.0", true⟩).fs.dirs ∧
     ∃ pre post, (textToSpeech ⟨[("ELEVENLABS_API_KEY", "k")], none, [],
        some (200, "AUDIO"), ⟨[], [("in.wav", "WAV")]⟩⟩
        "hi" "out/a.ogg" "v" "opus" ⟨"0.0", "0.75", "0.5", "1.0", true⟩).trace =
       pre ++ [.mkdirAll (dirOf "out/a.ogg"), .fileWrite "out/a.ogg" "AUDIO"] ++ post) ∧
    ((voiceChange ⟨[("ELEVENLABS_API_KEY", "k")], none, [],
        some (200, "AUDIO"), ⟨[], [("in.wav", "WAV")]⟩⟩
        "in.wav" "out/a.ogg" "v" "opus").outcome = .ok ∧
     fsRead (voiceChange ⟨[("ELEVENLABS_API_KEY", "k")], none, [],
        some (200, "AUDIO"), ⟨[], [("in.wav", "WAV")]⟩⟩
        "in.wav" "out/a.ogg" "v" "opus").fs "out/a.ogg" = some "AUDIO" ∧
     dirOf "out/a.ogg" ∈ (voiceChange ⟨[("ELEVENLABS_API_KEY", "k")], none, [],
        some (200, "AUDIO"), ⟨[], [("in.wav", "WAV")]⟩⟩
        "in.wav" "out/a.ogg" "v" "opus").fs.dirs ∧
     ∃ pre post, (voiceChange ⟨[("ELEVENLABS_API_KEY", "k")], none, [],
        some (200, "AUDIO"), ⟨[], [("in.wav", "WAV")]⟩⟩
        "in.wav" "out/a.ogg" "v" "opus").trace =
       pre ++ [.mkdirAll (dirOf "out/a.ogg"), .fileWrite "out/a.ogg" "AUDIO"] ++ post) :=
  success_persists_body ⟨[("ELEVENLABS_API_KEY", "k")], none, [],
      some (200, "AUDIO"), ⟨[], [("in.wav", "WAV")]⟩⟩ "AUDIO"
    "hi" "out/a.ogg" "v" "in.wav" "opus" "opus_48000_96" "WAV"
    ⟨"0.0", "0.75", "0.5", "1.0", true⟩
    (by decide) (by decide) (by decide) (by decide)

/-- C5: for a response whose status differs from 200, each operation returns
the API error carrying exactly the response status, its message is the
literal "API error status: body" string (so the body appears verbatim in
it), the file system is left unchanged, and the trace contains no file
write. -/
theorem apiError_contract (w : World) (status : Nat) (body : String)
    (text outputPath voiceID inputPath format apiFormat audio : String)
    (vs : VoiceSettingsM)
    (hkey : envGet (loadEnvW w) "ELEVENLABS_API_KEY" ≠ "")
    (hfmt : outputFormats format = some apiFormat)
    (hresp : w.httpResponse = some (status, body))
    (hst : status ≠ 200)
    (hin : fsRead w.fs inputPath = some audio) :
    (textToSpeech w text outputPath voiceID format vs).outcome =
      .err (.apiError status body) ∧
    (voiceChange w inputPath outputPath voiceID format).outcome =
      .err (.apiError status body) ∧
    errMessage (.apiError status body) =
      "API error " ++ toString status ++ ": " ++ body ∧
    (∃ pre, errMessage (.apiError status body) = pre ++ body) ∧
    (textToSpeech w text outputPath voiceID format vs).fs = w.fs ∧
    (voiceChange w inputPath outputPath voiceID format).fs = w.fs ∧
    (textToSpeech w text outputPath voiceID format vs).trace.filter isFileWrite = [] ∧
    (voiceChange w inputPath outputPath voiceID format).trace.filter isFileWrite = [] := by
  have ht : textToSpeech w text outputPath voiceID format vs =
      { outcome := .err (.apiError status body)
        trace := [.otelInfo "tts_request"
                    [("voice_id", .s voiceID), ("format", .s format),
                     ("text_len", .n text.utf8ByteSize)],
                  .netRequest "POST" (apiBaseURL ++ "/text-to-speech/" ++ voiceID ++
                    "?output_format=" ++ apiFormat)]
        fs := w.fs } := by
    simp [textToSpeech, hkey, hfmt, hresp, hst]
  have hv : voiceChange w inputPath outputPath voiceID format =
      { outcome := .err (.apiError status body)
        trace := [.otelInfo "voice_change_request"
                    [("voice_id", .s voiceID), ("format", .s format),
                     ("input", .s inputPath)],
                  .netRequest "POST" (apiBaseURL ++ "/speech-to-speech/" ++ voiceID ++
                    "?output_format=" ++ apiFormat)]
        fs := w.fs } := by
    simp [voiceChange, hkey, hfmt, hresp, hst, hin]
  rw [ht, hv]
  refine ⟨rfl, rfl, rfl, ⟨"API error " ++ toString status ++ ": ", rfl⟩,
          rfl, rfl, by simp [isFileWrite], by simp [isFileWrite]⟩

/-- C5 witness: a concrete 404 response with body "bad voice" yields the API
error with status 404 whose message is exactly "API error 404: bad voice",
and no file is written. -/
theorem apiError_contract_witness :
    (textToSpeech ⟨[("ELEVENLABS_API_KEY", "k")], none, [],
        some (404, "bad voice"), ⟨[], [("in.wav", "WAV")]⟩⟩
        "hi" "o.ogg" "v" "opus" ⟨"0.0", "0.75", "0.5", "1.0", true⟩).outcome =
      .err (.apiError 404 "bad voice") ∧
    (voiceChange ⟨[("ELEVENLABS_API_KEY", "k")], none, [],
        some (404, "bad voice"), ⟨[], [("in.wav", "WAV")]⟩⟩
        "in.wav" "o.ogg" "v" "opus").outcome = .err (.apiError 404 "bad voice") ∧
    errMessage (.apiError 404 "bad voice") =
      "API error " ++ toString (404 : Nat) ++ ": " ++ "bad voice" ∧
    (∃ pre, errMessage (.apiError 404 "bad voice") = pre ++ "bad voice") ∧
    (textToSpeech ⟨[("ELEVENLABS_API_KEY", "k")], none, [],
        some (404, "bad voice"), ⟨[], [("in.wav", "WAV")]⟩⟩
        "hi" "o.ogg" "v" "opus" ⟨"0.0", "0.75", "0.5", "1.0", true⟩).fs =
      (⟨[], [("in.wav", "WAV")]⟩ : FS) ∧
    (voiceChange ⟨[("ELEVENLABS_API_KEY", "k")], none, [],
        some (404, "bad voice"), ⟨[], [("in.wav", "WAV")]⟩⟩
        "in.wav" "o.ogg" "v" "opus").fs = (⟨[], [("in.wav", "WAV")]⟩ : FS) ∧
    (textToSpeech ⟨[("ELEVENLABS_API_KEY", "k")], none, [],
        some (404, "bad voice"), ⟨[], [("in.wav", "WAV")]⟩⟩
        "hi" "o.ogg" "v" "opus" ⟨"0.0", "0.75", "0.5", "1.0", true⟩).trace.filter
        isFileWrite = [] ∧
    (voiceChange ⟨[("ELEVENLABS_API_KEY", "k")], none, [],
        some (404, "bad voice"), ⟨[], [("in.wav", "WAV")]⟩⟩
        "in.wav" "o.ogg" "v" "opus").trace.filter isFileWrite = [] :=
  apiError_contract ⟨[("ELEVENLABS_API_KEY", "k")], none, [],
      some (404, "bad voice"), ⟨[], [("in.wav", "WAV")]⟩⟩ 404 "bad voice"
    "hi" "o.ogg" "v" "in.wav" "opus" "opus_48000_96" "WAV"
    ⟨"0.0", "0.75", "0.5", "1.0", true⟩
    (by decide) (by decide) (by decide) (by decide) (by decide)

/-- C7 counterexample: with an empty environment, no dotenv files and no
caller override, the tts command's failure names the voice identifier
(ELEVENLABS_TTS_VOICE_ID), not the credential — the orchestrator resolves
the voice identifier first, refuting the claim that the credential is
resolved first and named in this situation. -/
theorem credentialFirst_counterexample :
    (cmdTTS ⟨[], none, [], none, ⟨[], []⟩⟩ "hello"
        ⟨"o.ogg", "", "opus", ⟨"0.0", "0.75", "0.5", "1.0", true⟩⟩).trace =
      [.otelError "ELEVENLABS_TTS_VOICE_ID not found" [],
       .stderrLine "ERROR: ELEVENLABS_TTS_VOICE_ID not found in environment"] ∧
    Event.stderrLine "ERROR: ELEVENLABS_API_KEY not found in environment" ∉
      (cmdTTS ⟨[], none, [], none, ⟨[], []⟩⟩ "hello"
        ⟨"o.ogg", "", "opus", ⟨"0.0", "0.75", "0.5", "1.0", true⟩⟩).trace := by
  refine ⟨rfl, by decide⟩

/-- C7 amended: each command resolves the effective voice identifier before
the credential; whenever the role-specific default voice is absent from the
effective environment and no override is supplied, the command exits with
the configuration-missing failure naming the voice identifier — never the
credential — and issues zero network requests, regardless of whether the
credential is present. -/
theorem voiceResolvedBeforeCredential (w : World) (text inputPath audio : String)
    (o : TTSOpts) (vo : VoiceOpts)
    (hov : o.voice = "")
    (hvid : envGet (loadEnvW w) "ELEVENLABS_TTS_VOICE_ID" = "")
    (hvov : vo.voice = "")
    (hvcid : envGet (loadEnvW w) "ELEVENLABS_VOICE_CHANGE_ID" = "")
    (hin : fsRead w.fs inputPath = some audio) :
    (cmdTTS w text o).outcome = .exited 1 ∧
    Event.stderrLine "ERROR: ELEVENLABS_TTS_VOICE_ID not found in environment" ∈
      (cmdTTS w text o).trace ∧
    Event.stderrLine "ERROR: ELEVENLABS_API_KEY not found in environment" ∉
      (cmdTTS w text o).trace ∧
    netCount (cmdTTS w text o).trace = 0 ∧
    (cmdVoice w inputPath vo).outcome = .exited 1 ∧
    Event.stderrLine "ERROR: ELEVENLABS_VOICE_CHANGE_ID not found in environment" ∈
      (cmdVoice w inputPath vo).trace ∧
    Event.stderrLine "ERROR: ELEVENLABS_API_KEY not found in environment" ∉
      (cmdVoice w inputPath vo).trace ∧
    netCount (cmdVoice w inputPath vo).trace = 0 := by
  have ht : cmdTTS w text o =
      { outcome := .exited 1
        trace := [.otelError "ELEVENLABS_TTS_VOICE_ID not found" [],
                  .stderrLine "ERROR: ELEVENLABS_TTS_VOICE_ID not found in environment"]
        fs := w.fs } := by
    simp [cmdTTS, hov, hvid]
  have hv : cmdVoice w inputPath vo =
      { outcome := .exited 1
        trace := [.otelError "ELEVENLABS_VOICE_CHANGE_ID not found" [],
                  .stderrLine "ERROR: ELEVENLABS_VOICE_CHANGE_ID not found in environment"]
        fs := w.fs } := by
    simp [cmdVoice, hin, hvov, hvcid]
  rw [ht, hv]
  refine ⟨rfl, by simp, by simp, rfl, rfl, by simp, by simp, rfl⟩

/-- C7 amended witness: with the credential present but no default voices
and no overrides, both commands exit naming the role-specific voice
identifier, with no network request and no credential diagnostic. -/
theorem voiceResolvedBeforeCredential_witness :
    (cmdTTS ⟨[("ELEVENLABS_API_KEY", "k")], none, [], none, ⟨[], [("in.wav", "WAV")]⟩⟩
        "hello" ⟨"o.ogg", "", "opus", ⟨"0.0", "0.75", "0.5", "1.0", true⟩⟩).outcome =
      .exited 1 ∧
    Event.stderrLine "ERROR: ELEVENLABS_TTS_VOICE_ID not found in environment" ∈
      (cmdTTS ⟨[("ELEVENLABS_API_KEY", "k")], none, [], none, ⟨[], [("in.wav", "WAV")]⟩⟩
        "hello" ⟨"o.ogg", "", "opus", ⟨"0.0", "0.75", "0.5", "1.0", true⟩⟩).trace ∧
    Event.stderrLine "ERROR: ELEVENLABS_API_KEY not found in environment" ∉
      (cmdTTS ⟨[("ELEVENLABS_API_KEY", "k")], none, [], none, ⟨[], [("in.wav", "WAV")]⟩⟩
        "hello" ⟨"o.ogg", "", "opus", ⟨"0.0", "0.75", "0.5", "1.0", true⟩⟩).trace ∧
    netCount (cmdTTS ⟨[("ELEVENLABS_API_KEY", "k")], none, [], none,
        ⟨[], [("in.wav", "WAV")]⟩⟩
        "hello" ⟨"o.ogg", "", "opus", ⟨"0.0", "0.75", "0.5", "1.0", true⟩⟩).trace = 0 ∧
    (cmdVoice ⟨[("ELEVENLABS_API_KEY", "k")], none, [], none, ⟨[], [("in.wav", "WAV")]⟩⟩
        "in.wav" ⟨"o.ogg", "", "opus"⟩).outcome = .exited 1 ∧
    Event.stderrLine "ERROR: ELEVENLABS_VOICE_CHANGE_ID not found in environment" ∈
      (cmdVoice ⟨[("ELEVENLABS_API_KEY", "k")], none, [], none, ⟨[], [("in.wav", "WAV")]⟩⟩
        "in.wav" ⟨"o.ogg", "", "opus"⟩).trace ∧
    Event.stderrLine "ERROR: ELEVENLABS_API_KEY not found in environment" ∉
      (cmdVoice ⟨[("ELEVENLABS_API_KEY", "k")], none, [], none, ⟨[], [("in.wav", "WAV")]⟩⟩
        "in.wav" ⟨"o.ogg", "", "opus"⟩).trace ∧
    netCount (cmdVoice ⟨[("ELEVENLABS_API_KEY", "k")], none, [], none,
        ⟨[], [("in.wav", "WAV")]⟩⟩ "in.wav" ⟨"o.ogg", "", "opus"⟩).trace = 0 :=
  voiceResolvedBeforeCredential
    ⟨[("ELEVENLABS_API_KEY", "k")], none, [], none, ⟨[], [("in.wav", "WAV")]⟩⟩
    "hello" "in.wav" "WAV"
    ⟨"o.ogg", "", "opus", ⟨"0.0", "0.75", "0.5", "1.0", true⟩⟩ ⟨"o.ogg", "", "opus"⟩
    (by decide) (by decide) (by decide) (by decide) (by decide)

theorem textToSpeech_env_congr (e₁ e₂ : Env) (xf : Option EnvFile) (cf : EnvFile)
    (hr : Option (Nat × String)) (fs : FS) (k : String)
    (h : agreesExcept k e₁ e₂) (hk : k ≠ "ELEVENLABS_API_KEY")
    (text outputPath voiceID format : String) (vs : VoiceSettingsM) :
    textToSpeech ⟨e₁, xf, cf, hr, fs⟩ text outputPath voiceID format vs =
      textToSpeech ⟨e₂, xf, cf, hr, fs⟩ text outputPath voiceID format vs := by
  have hkey : envGet (loadEnvGo xf cf e₁) "ELEVENLABS_API_KEY" =
      envGet (loadEnvGo xf cf e₂) "ELEVENLABS_API_KEY" :=
    envGet_of_agreesExcept k _ _ _ (loadEnvGo_agreesExcept _ _ _ _ _ h) (Ne.symm hk)
  simp only [textToSpeech, loadEnvW]
  rw [hkey]

theorem voiceChange_env_congr (e₁ e₂ : Env) (xf : Option EnvFile) (cf : EnvFile)
    (hr : Option (Nat × String)) (fs : FS) (k : String)
    (h : agreesExcept k e₁ e₂) (hk : k ≠ "ELEVENLABS_API_KEY")
    (inputPath outputPath voiceID format : String) :
    voiceChange ⟨e₁, xf, cf, hr, fs⟩ inputPath outputPath voiceID format =
      voiceChange ⟨e₂, xf, cf, hr, fs⟩ inputPath outputPath voiceID format := by
  have hkey : envGet (loadEnvGo xf cf e₁) "ELEVENLABS_API_KEY" =
      envGet (loadEnvGo xf cf e₂) "ELEVENLABS_API_KEY" :=
    envGet_of_agreesExcept k _ _ _ (loadEnvGo_agreesExcept _ _ _ _ _ h) (Ne.symm hk)
  simp only [voiceChange, loadEnvW]
  rw [hkey]

/-- C8: given a caller-supplied non-empty voice override, the configured
default voice environment value is never consulted: two invocations whose
worlds are identical except for the binding of ELEVENLABS_TTS_VOICE_ID
(resp. ELEVENLABS_VOICE_CHANGE_ID) produce identical results — outcome,
event trace and final file system alike. -/
theorem overrideShieldsDefaultVoice (e₁ e₂ : Env) (xf : Option EnvFile) (cf : EnvFile)
    (hr : Option (Nat × String)) (fs : FS)
    (text inputPath : String) (o : TTSOpts) (vo : VoiceOpts) :
    (o.voice ≠ "" → agreesExcept "ELEVENLABS_TTS_VOICE_ID" e₁ e₂ →
      cmdTTS ⟨e₁, xf, cf, hr, fs⟩ text o = cmdTTS ⟨e₂, xf, cf, hr, fs⟩ text o) ∧
    (vo.voice ≠ "" → agreesExcept "ELEVENLABS_VOICE_CHANGE_ID" e₁ e₂ →
      cmdVoice ⟨e₁, xf, cf, hr, fs⟩ inputPath vo =
        cmdVoice ⟨e₂, xf, cf, hr, fs⟩ inputPath vo) := by
  constructor
  · intro hov h
    simp only [cmdTTS, if_neg hov]
    rw [textToSpeech_env_congr e₁ e₂ xf cf hr fs "ELEVENLABS_TTS_VOICE_ID" h (by decide)]
  · intro hov h
    simp only [cmdVoice, if_neg hov]
    rw [voiceChange_env_congr e₁ e₂ xf cf hr fs "ELEVENLABS_VOICE_CHANGE_ID" h (by decide)]

/-- C8 witness: two concrete worlds differing only in the default-voice
binding give the same tts run under an override, and two differing only in
the voice-change binding give the same voice run under an override. -/
theorem overrideShieldsDefaultVoice_witness :
    (cmdTTS ⟨[("ELEVENLABS_API_KEY", "k"), ("ELEVENLABS_TTS_VOICE_ID", "a")],
        none, [], some (200, "AUDIO"), ⟨[], [("in.wav", "WAV")]⟩⟩ "hi"
        ⟨"o.ogg", "v1", "opus", ⟨"0.0", "0.75", "0.5", "1.0", true⟩⟩ =
      cmdTTS ⟨[("ELEVENLABS_API_KEY", "k"), ("ELEVENLABS_TTS_VOICE_ID", "b")],
        none, [], some (200, "AUDIO"), ⟨[], [("in.wav", "WAV")]⟩⟩ "hi"
        ⟨"o.ogg", "v1", "opus", ⟨"0.0", "0.75", "0.5", "1.0", true⟩⟩) ∧
    (cmdVoice ⟨[("ELEVENLABS_API_KEY", "k"), ("ELEVENLABS_VOICE_CHANGE_ID", "c")],
        none, [], some (200, "AUDIO"), ⟨[], [("in.wav", "WAV")]⟩⟩ "in.wav"
        ⟨"o.ogg", "v2", "opus"⟩ =
      cmdVoice ⟨[("ELEVENLABS_API_KEY", "k"), ("ELEVENLABS_VOICE_CHANGE_ID", "d")],
        none, [], some (200, "AUDIO"), ⟨[], [("in.wav", "WAV")]⟩⟩ "in.wav"
        ⟨"o.ogg", "v2", "opus"⟩) :=
  ⟨(overrideShieldsDefaultVoice
      [("ELEVENLABS_API_KEY", "k"), ("ELEVENLABS_TTS_VOICE_ID", "a")]
      [("ELEVENLABS_API_KEY", "k"), ("ELEVENLABS_TTS_VOICE_ID", "b")]
      none [] (some (200, "AUDIO")) ⟨[], [("in.wav", "WAV")]⟩ "hi" "in.wav"
      ⟨"o.ogg", "v1", "opus", ⟨"0.0", "0.75", "0.5", "1.0", true⟩⟩
      ⟨"o.ogg", "v2", "opus"⟩).1 (by decide) rfl,
   (overrideShieldsDefaultVoice
      [("ELEVENLABS_API_KEY", "k"), ("ELEVENLABS_VOICE_CHANGE_ID", "c")]
      [("ELEVENLABS_API_KEY", "k"), ("ELEVENLABS_VOICE_CHANGE_ID", "d")]
      none [] (some (200, "AUDIO")) ⟨[], [("in.wav", "WAV")]⟩ "hi" "in.wav"
      ⟨"o.ogg", "v1", "opus", ⟨"0.0", "0.75", "0.5", "1.0", true⟩⟩
      ⟨"o.ogg", "v2", "opus"⟩).2 (by decide) rfl⟩

/-- C9 counterexample: in a concrete successful synthesis the completion
event (tts_complete) carries exactly one attribute, the destination path —
it carries neither the voice id nor the format nor a size metric, refuting
the claim about the completion event's attributes. -/
theorem completionEvent_counterexample :
    eventsNamed "tts_complete"
      (cmdTTS ⟨[("ELEVENLABS_API_KEY", "k")], none, [], some (200, "AUDIO"), ⟨[], []⟩⟩
        "hi" ⟨"out.ogg", "v1", "opus", ⟨"0.0", "0.75", "0.5", "1.0", true⟩⟩).trace =
      [.otelInfo "tts_complete" [("output", .s "out.ogg")]] ∧
    "voice_id" ∉ attrKeys [("output", AttrVal.s "out.ogg")] ∧
    "format" ∉ attrKeys [("output", AttrVal.s "out.ogg")] ∧
    "text_len" ∉ attrKeys [("output", AttrVal.s "out.ogg")] := by
  refine ⟨rfl, by decide, by decide, by decide⟩

/-- C9 amended: on every successful operation — whether the voice id comes
from the caller override or from the configured environment default — the
voice id, the format and the operation-specific metric (the text length for
synthesis, the input path for transformation) are carried by the structured
REQUEST event, while the completion event carries the destination path; the
success path prints exactly the destination path (one stdout line). The
hypotheses are exactly the preconditions of success: credential present, a
resolvable voice id, a supported format, a 200 response, and (for
transformation) a readable source file. -/
theorem events_and_print_on_success (w : World) (B : String)
    (text inputPath apiFormatT apiFormatV audio : String) (o : TTSOpts) (vo : VoiceOpts)
    (hkey : envGet (loadEnvW w) "ELEVENLABS_API_KEY" ≠ "")
    (hvt : effectiveTTSVoice w o ≠ "") (hvv : effectiveVoiceChangeVoice w vo ≠ "")
    (hfmtT : outputFormats o.format = some apiFormatT)
    (hfmtV : outputFormats vo.format = some apiFormatV)
    (hresp : w.httpResponse = some (200, B))
    (hin : fsRead w.fs inputPath = some audio) :
    (cmdTTS w text o).outcome = .ok ∧
    Event.otelInfo "tts_request"
        [("voice_id", .s (effectiveTTSVoice w o)), ("format", .s o.format),
         ("text_len", .n text.utf8ByteSize)] ∈ (cmdTTS w text o).trace ∧
    Event.otelInfo "tts_complete" [("output", .s o.output)] ∈ (cmdTTS w text o).trace ∧
    (cmdTTS w text o).trace.filter isStdout = [.stdoutLine o.output] ∧
    (cmdVoice w inputPath vo).outcome = .ok ∧
    Event.otelInfo "voice_change_request"
        [("voice_id", .s (effectiveVoiceChangeVoice w vo)), ("format", .s vo.format),
         ("input", .s inputPath)] ∈ (cmdVoice w inputPath vo).trace ∧
    Event.otelInfo "voice_change_complete" [("output", .s vo.output)] ∈
      (cmdVoice w inputPath vo).trace ∧
    (cmdVoice w inputPath vo).trace.filter isStdout = [.stdoutLine vo.output] := by
  have ht : cmdTTS w text o =
      { outcome := .ok
        trace := [.otelInfo "tts_request"
                    [("voice_id", .s (effectiveTTSVoice w o)), ("format", .s o.format),
                     ("text_len", .n text.utf8ByteSize)],
                  .netRequest "POST" (apiBaseURL ++ "/text-to-speech/" ++
                    effectiveTTSVoice w o ++ "?output_format=" ++ apiFormatT),
                  .mkdirAll (dirOf o.output),
                  .fileWrite o.output B,
                  .otelInfo "tts_complete" [("output", .s o.output)],
                  .stdoutLine o.output]
        fs := fsWrite (fsMkdirAll w.fs (dirOf o.output)) o.output B } := by
    by_cases ho : o.voice = ""
    · have hvid : envGet (loadEnvGo w.exeEnvFile w.cwdEnvFile w.env)
          "ELEVENLABS_TTS_VOICE_ID" ≠ "" := by
        simpa [effectiveTTSVoice, ho, loadEnvW] using hvt
      have hkey2 : envGet (loadEnvGo w.exeEnvFile w.cwdEnvFile
          (loadEnvGo w.exeEnvFile w.cwdEnvFile w.env)) "ELEVENLABS_API_KEY" ≠ "" := by
        rw [loadEnvGo_idem]; exact hkey
      simp [cmdTTS, ho, hvid, textToSpeech, loadEnvW, hkey2, hfmtT, hresp, wrapCmd,
        effectiveTTSVoice]
    · have hkey1 : envGet (loadEnvGo w.exeEnvFile w.cwdEnvFile w.env)
          "ELEVENLABS_API_KEY" ≠ "" := hkey
      simp [cmdTTS, ho, textToSpeech, loadEnvW, hkey1, hfmtT, hresp, wrapCmd,
        effectiveTTSVoice]
  have hv : cmdVoice w inputPath vo =
      { outcome := .ok
        trace := [.otelInfo "voice_change_request"
                    [("voice_id", .s (effectiveVoiceChangeVoice w vo)),
                     ("format", .s vo.format), ("input", .s inputPath)],
                  .netRequest "POST" (apiBaseURL ++ "/speech-to-speech/" ++
                    effectiveVoiceChangeVoice w vo ++ "?output_format=" ++ apiFormatV),
                  .mkdirAll (dirOf vo.output),
                  .fileWrite vo.output B,
                  .otelInfo "voice_change_complete" [("output", .s vo.output)],
                  .stdoutLine vo.output]
        fs := fsWrite (fsMkdirAll w.fs (dirOf vo.output)) vo.output B } := by
    by_cases ho : vo.voice = ""
    · have hvid : envGet (loadEnvGo w.exeEnvFile w.cwdEnvFile w.env)
          "ELEVENLABS_VOICE_CHANGE_ID" ≠ "" := by
        simpa [effectiveVoiceChangeVoice, ho, loadEnvW] using hvv
      have hkey2 : envGet (loadEnvGo w.exeEnvFile w.cwdEnvFile
          (loadEnvGo w.exeEnvFile w.cwdEnvFile w.env)) "ELEVENLABS_API_KEY" ≠ "" := by
        rw [loadEnvGo_idem]; exact hkey
      simp [cmdVoice, ho, hvid, hin, voiceChange, loadEnvW, hkey2, hfmtV, hresp, wrapCmd,
        effectiveVoiceChangeVoice]
    · have hkey1 : envGet (loadEnvGo w.exeEnvFile w.cwdEnvFile w.env)
          "ELEVENLABS_API_KEY" ≠ "" := hkey
      simp [cmdVoice, ho, hin, voiceChange, loadEnvW, hkey1, hfmtV, hresp, wrapCmd,
        effectiveVoiceChangeVoice]
  rw [ht, hv]
  refine ⟨rfl, by simp, by simp, by simp [isStdout, List.filter],
          rfl, by simp, by simp, by simp [isStdout, List.filter]⟩

/-- C9 amended witness: a concrete successful run of both commands with NO
caller override — the voice ids come from the configured environment
defaults dv1 and dv2 — shows the request events carrying voice id, format
and the operation-specific metric, the completion events carrying the
destination path, and exactly that path printed on stdout. -/
theorem events_and_print_on_success_witness :
    (cmdTTS ⟨[("ELEVENLABS_API_KEY", "k"), ("ELEVENLABS_TTS_VOICE_ID", "dv1"),
        ("ELEVENLABS_VOICE_CHANGE_ID", "dv2")], none, [], some (200, "AUDIO"),
        ⟨[], [("in.wav", "WAV")]⟩⟩ "hi"
        ⟨"out.ogg", "", "opus", ⟨"0.0", "0.75", "0.5", "1.0", true⟩⟩).outcome = .ok ∧
    Event.otelInfo "tts_request"
        [("voice_id", .s "dv1"), ("format", .s "opus"),
         ("text_len", .n ("hi" : String).utf8ByteSize)] ∈
      (cmdTTS ⟨[("ELEVENLABS_API_KEY", "k"), ("ELEVENLABS_TTS_VOICE_ID", "dv1"),
        ("ELEVENLABS_VOICE_CHANGE_ID", "dv2")], none, [], some (200, "AUDIO"),
        ⟨[], [("in.wav", "WAV")]⟩⟩ "hi"
        ⟨"out.ogg", "", "opus", ⟨"0.0", "0.75", "0.5", "1.0", true⟩⟩).trace ∧
    Event.otelInfo "tts_complete" [("output", .s "out.ogg")] ∈
      (cmdTTS ⟨[("ELEVENLABS_API_KEY", "k"), ("ELEVENLABS_TTS_VOICE_ID", "dv1"),
        ("ELEVENLABS_VOICE_CHANGE_ID", "dv2")], none, [], some (200, "AUDIO"),
        ⟨[], [("in.wav", "WAV")]⟩⟩ "hi"
        ⟨"out.ogg", "", "opus", ⟨"0.0", "0.75", "0.5", "1.0", true⟩⟩).trace ∧
    (cmdTTS ⟨[("ELEVENLABS_API_KEY", "k"), ("ELEVENLABS_TTS_VOICE_ID", "dv1"),
        ("ELEVENLABS_VOICE_CHANGE_ID", "dv2")], none, [], some (200, "AUDIO"),
        ⟨[], [("in.wav", "WAV")]⟩⟩ "hi"
        ⟨"out.ogg", "", "opus", ⟨"0.0", "0.75", "0.5", "1.0", true⟩⟩).trace.filter
        isStdout = [.stdoutLine "out.ogg"] ∧
    (cmdVoice ⟨[("ELEVENLABS_API_KEY", "k"), ("ELEVENLABS_TTS_VOICE_ID", "dv1"),
        ("ELEVENLABS_VOICE_CHANGE_ID", "dv2")], none, [], some (200, "AUDIO"),
        ⟨[], [("in.wav", "WAV")]⟩⟩ "in.wav" ⟨"vc.ogg", "", "mp3"⟩).outcome = .ok ∧
    Event.otelInfo "voice_change_request"
        [("voice_id", .s "dv2"), ("format", .s "mp3"), ("input", .s "in.wav")] ∈
      (cmdVoice ⟨[("ELEVENLABS_API_KEY", "k"), ("ELEVENLABS_TTS_VOICE_ID", "dv1"),
        ("ELEVENLABS_VOICE_CHANGE_ID", "dv2")], none, [], some (200, "AUDIO"),
        ⟨[], [("in.wav", "WAV")]⟩⟩ "in.wav" ⟨"vc.ogg", "", "mp3"⟩).trace ∧
    Event.otelInfo "voice_change_complete" [("output", .s "vc.ogg")] ∈
      (cmdVoice ⟨[("ELEVENLABS_API_KEY", "k"), ("ELEVENLABS_TTS_VOICE_ID", "dv1"),
        ("ELEVENLABS_VOICE_CHANGE_ID", "dv2")], none, [], some (200, "AUDIO"),
        ⟨[], [("in.wav", "WAV")]⟩⟩ "in.wav" ⟨"vc.ogg", "", "mp3"⟩).trace ∧
    (cmdVoice ⟨[("ELEVENLABS_API_KEY", "k"), ("ELEVENLABS_TTS_VOICE_ID", "dv1"),
        ("ELEVENLABS_VOICE_CHANGE_ID", "dv2")], none, [], some (200, "AUDIO"),
        ⟨[], [("in.wav", "WAV")]⟩⟩ "in.wav" ⟨"vc.ogg", "", "mp3"⟩).trace.filter
        isStdout = [.stdoutLine "vc.ogg"] :=
  events_and_print_on_success
    ⟨[("ELEVENLABS_API_KEY", "k"), ("ELEVENLABS_TTS_VOICE_ID", "dv1"),
        ("ELEVENLABS_VOICE_CHANGE_ID", "dv2")], none, [], some (200, "AUDIO"),
      ⟨[], [("in.wav", "WAV")]⟩⟩ "AUDIO" "hi" "in.wav"
    "opus_48000_96" "mp3_44100_128" "WAV"
    ⟨"out.ogg", "", "opus", ⟨"0.0", "0.75", "0.5", "1.0", true⟩⟩
    ⟨"vc.ogg", "", "mp3"⟩
    (by decide) (by decide) (by decide) (by decide) (by decide) (by decide) (by decide)

end ElevenLabs
